import Mathlib

/-
Verification of the OpenLineage Airflow extractor contract
(integration/airflow/openlineage/airflow/extractors/base.py).

The file shallowly embeds the two entities of that module:

* `TaskMetadata` — the attrs value class holding one task execution's
  lineage facts, together with the keyword-argument construction
  interface generated by attrs (`name` has no default; the four
  collection fields default to their empty forms via `factory=list`
  and `factory=dict`).

* `BaseExtractor` — the abstract extractor class.  An extractor class
  is modelled by `ExtractorClass`, recording for each overridable
  method of the base class whether a subclass overrides it (`some`
  impl) or inherits the base body (`none`), plus the mandatory
  abstract `extract`.  A bound extractor instance is an
  `ExtractorClass` together with the stored `operator`.  Python state
  mutation is modelled by explicit state passing, and raised
  exceptions by `Except`.
-/

/-- Modelled from the spec: `Dataset` comes from `openlineage.client.run`,
which is outside this module; the spec treats it as opaque beyond
namespace + name identity of a data source or sink. -/
structure Dataset where
  namespace_ : String
  name : String
deriving DecidableEq, Repr

/-- Modelled from the spec: `BaseFacet` comes from `openlineage.client.facet`,
outside this module; the spec treats facets as opaque structured payloads. -/
structure BaseFacet where
  payload : String
deriving DecidableEq, Repr

/-- Python class `TaskMetadata` (base.py lines 13-19): name (deprecated),
inputs, outputs, run facets, job facets.  The `Dict[str, BaseFacet]`
facet maps are modelled as association lists keyed by facet name. -/
structure TaskMetadata where
  name : String
  inputs : List Dataset
  outputs : List Dataset
  run_facets : List (String × BaseFacet)
  job_facets : List (String × BaseFacet)
deriving DecidableEq, Repr

/-- Error raised by the attrs-generated constructor of `TaskMetadata`:
omitting `name`, the only field without a default, raises
`TypeError: missing 1 required positional argument`. -/
inductive ConstructError where
  | typeErrorMissingName
deriving DecidableEq, Repr

/-- The attrs-generated constructor of `TaskMetadata` at the
keyword-argument level: `none` models an omitted argument.
`name = attr.ib()` has no default, so omitting it raises a TypeError;
`inputs`/`outputs` default to `factory=list` (fresh empty list) and
`run_facets`/`job_facets` to `factory=dict` (fresh empty dict). -/
def TaskMetadata.init (name : Option String)
    (inputs : Option (List Dataset)) (outputs : Option (List Dataset))
    (run_facets : Option (List (String × BaseFacet)))
    (job_facets : Option (List (String × BaseFacet))) :
    Except ConstructError TaskMetadata :=
  match name with
  | none => Except.error ConstructError.typeErrorMissingName
  | some n =>
      Except.ok
        { name := n
          inputs := inputs.getD []
          outputs := outputs.getD []
          run_facets := run_facets.getD []
          job_facets := job_facets.getD [] }

/-- A task instance (operator) as seen by this module: the runtime type
name `self.operator.__class__.__name__` used for dispatch, plus the
implementation-specific configuration, opaque to the base class. -/
structure Operator where
  className : String
  config : String
deriving DecidableEq, Repr

/-- Exceptions raised by the methods of `BaseExtractor`:
`NotImplementedError` from the non-overridden `get_operator_classnames`,
and `AssertionError` from the `assert` in `validate`. -/
inductive ExtractorError where
  | notImplementedError
  | assertionError
deriving DecidableEq, Repr

/-- A concrete extractor class: which overridable methods of
`BaseExtractor` the subclass overrides (`none` = inherit the base
body) plus the mandatory abstract `extract`.  An override of `patch`
may mutate the operator (register extension methods or patches), so
it is modelled as a function on the operator state; an override of
`extract_on_complete` sees both `self.operator` and its
`task_instance` argument. -/
structure ExtractorClass where
  operator_classnames : Option (List String)
  patch : Option (Operator → Operator)
  extract : Operator → Option TaskMetadata
  extract_on_complete : Option (Operator → Operator → Option TaskMetadata)

/-- A bound extractor instance: the class it belongs to and the operator
stored by `__init__` via `self.operator = operator`. -/
structure BaseExtractor where
  cls : ExtractorClass
  operator : Operator

/-- Classmethod `get_operator_classnames` (base.py lines 32-42): the
base body raises `NotImplementedError()`; a subclass override returns
its list of supported operator class names. -/
def ExtractorClass.get_operator_classnames (cls : ExtractorClass) :
    Except ExtractorError (List String) :=
  match cls.operator_classnames with
  | none => Except.error ExtractorError.notImplementedError
  | some l => Except.ok l

/-- The classmethod invoked through a bound instance
(`self.get_operator_classnames()` resolves to the class method). -/
def BaseExtractor.get_operator_classnames (self : BaseExtractor) :
    Except ExtractorError (List String) :=
  self.cls.get_operator_classnames

/-- Method `patch` (base.py lines 28-30): the base body is `pass`
(the instance state is unchanged); an override may register extension
methods or patches on the operator. -/
def BaseExtractor.patch (self : BaseExtractor) : BaseExtractor :=
  match self.cls.patch with
  | none => self
  | some f => { self with operator := f self.operator }

/-- Constructor `__init__` (base.py lines 23-26): after
`super().__init__()` (the `LoggingMixin` initializer, logging
infrastructure outside this contract and without extractor state), it
stores the operator via `self.operator = operator` and then calls
`self.patch()`. -/
def BaseExtractor.init (cls : ExtractorClass) (operator : Operator) :
    BaseExtractor :=
  (BaseExtractor.mk cls operator).patch

/-- Method `validate` (base.py lines 44-45):
`assert (self.operator.__class__.__name__ in self.get_operator_classnames())`.
A `NotImplementedError` from `get_operator_classnames` propagates; a
failed assert raises `AssertionError`; otherwise the method returns
normally. -/
def BaseExtractor.validate (self : BaseExtractor) : Except ExtractorError Unit :=
  match self.get_operator_classnames with
  | Except.error e => Except.error e
  | Except.ok names =>
      if self.operator.className ∈ names then Except.ok ()
      else Except.error ExtractorError.assertionError

/-- Abstract method `extract` (base.py lines 47-49): supplied by the
concrete class, reading the bound operator. -/
def BaseExtractor.extract (self : BaseExtractor) : Option TaskMetadata :=
  self.cls.extract self.operator

/-- Method `extract_on_complete` (base.py lines 51-52): the base body
is `return self.extract()`; an override may use the `task_instance`
argument. -/
def BaseExtractor.extract_on_complete (self : BaseExtractor)
    (task_instance : Operator) : Option TaskMetadata :=
  match self.cls.extract_on_complete with
  | none => self.extract
  | some f => f self.operator task_instance

/-- A concrete operator of type `BigQueryOperator`, used as a test
fixture. -/
def bqOp : Operator := { className := "BigQueryOperator", config := "cfg" }

/-- A concrete operator of type `PostgresOperator`, used as a test
fixture. -/
def pgOp : Operator := { className := "PostgresOperator", config := "cfg" }

/-- A concrete extractor class supporting `BigQueryOperator`,
overriding neither `patch` nor `extract_on_complete`. -/
def demoCls : ExtractorClass :=
  { operator_classnames := some ["BigQueryOperator"]
    patch := none
    extract := fun _ => some ⟨"demo", [], [], [], []⟩
    extract_on_complete := none }

/-- An extractor class that overrides nothing, in particular not
`get_operator_classnames`. -/
def abstractCls : ExtractorClass :=
  { operator_classnames := none
    patch := none
    extract := fun _ => none
    extract_on_complete := none }

/-- An extractor class whose `patch` override modifies the operator. -/
def patchingCls : ExtractorClass :=
  { operator_classnames := some ["BigQueryOperator"]
    patch := some (fun op => { op with config := op.config ++ ".patched" })
    extract := fun _ => none
    extract_on_complete := none }

/-- A demo extractor bound to a matching operator. -/
def demoSelf : BaseExtractor := BaseExtractor.init demoCls bqOp

/-- A demo extractor bound to an unsupported operator. -/
def mismatchSelf : BaseExtractor := BaseExtractor.init demoCls pgOp

/-- Helper: running `patch` never changes which class the instance
belongs to. -/
theorem patch_preserves_cls (self : BaseExtractor) :
    (BaseExtractor.patch self).cls = self.cls := by
  unfold BaseExtractor.patch
  rcases h : self.cls.patch with _ | f <;> simp [h]

/-- Helper: the constructed instance belongs to the class it was
constructed from. -/
theorem init_cls (cls : ExtractorClass) (op : Operator) :
    (BaseExtractor.init cls op).cls = cls := by
  unfold BaseExtractor.init
  rw [patch_preserves_cls]

/-- C1: for every extractor whose `get_operator_classnames` returns a
list S of type names, `validate` returns normally iff the bound
operator's runtime class name is a member of S; on non-membership it
raises instead of returning normally. -/
theorem C1_validate_iff_supported (self : BaseExtractor) (S : List String)
    (h : self.get_operator_classnames = Except.ok S) :
    (self.validate = Except.ok () ↔ self.operator.className ∈ S)
    ∧ (self.operator.className ∉ S → self.validate ≠ Except.ok ()) := by
  unfold BaseExtractor.validate
  rw [h]
  by_cases hm : self.operator.className ∈ S
  · simp [hm]
  · simp [hm]

/-- Witness for C1 at a concrete extractor supporting
`BigQueryOperator`, bound to a `BigQueryOperator` instance. -/
theorem C1_witness :
    (demoSelf.validate = Except.ok () ↔ demoSelf.operator.className ∈ ["BigQueryOperator"])
    ∧ (demoSelf.operator.className ∉ ["BigQueryOperator"] →
        demoSelf.validate ≠ Except.ok ()) :=
  C1_validate_iff_supported demoSelf ["BigQueryOperator"] rfl

/-- C2: in every successful construction of a `TaskMetadata`, each of
the four collection arguments that was omitted independently defaults
to its empty form. -/
theorem C2_omitted_default_empty (n : String)
    (i o : Option (List Dataset))
    (r j : Option (List (String × BaseFacet))) (md : TaskMetadata)
    (h : TaskMetadata.init (some n) i o r j = Except.ok md) :
    (i = none → md.inputs = []) ∧ (o = none → md.outputs = [])
    ∧ (r = none → md.run_facets = []) ∧ (j = none → md.job_facets = []) := by
  simp only [TaskMetadata.init, Except.ok.injEq] at h
  subst h
  refine ⟨fun hi => ?_, fun ho => ?_, fun hr => ?_, fun hj => ?_⟩ <;> simp_all

/-- Witness for C2: constructing with every collection omitted. -/
theorem C2_witness :
    ((none : Option (List Dataset)) = none →
      (⟨"task", [], [], [], []⟩ : TaskMetadata).inputs = [])
    ∧ ((none : Option (List Dataset)) = none →
      (⟨"task", [], [], [], []⟩ : TaskMetadata).outputs = [])
    ∧ ((none : Option (List (String × BaseFacet))) = none →
      (⟨"task", [], [], [], []⟩ : TaskMetadata).run_facets = [])
    ∧ ((none : Option (List (String × BaseFacet))) = none →
      (⟨"task", [], [], [], []⟩ : TaskMetadata).job_facets = []) :=
  C2_omitted_default_empty ("task") none none none none
    ⟨"task", [], [], [], []⟩ rfl

/-- C3: an extractor class that does not override
`get_operator_classnames` fails with `NotImplementedError` when the
method is invoked, both on the class and through a bound instance,
and never returns an empty list. -/
theorem C3_classnames_not_implemented (cls : ExtractorClass) (op : Operator)
    (h : cls.operator_classnames = none) :
    cls.get_operator_classnames = Except.error ExtractorError.notImplementedError
    ∧ (BaseExtractor.init cls op).get_operator_classnames
        = Except.error ExtractorError.notImplementedError
    ∧ cls.get_operator_classnames ≠ Except.ok [] := by
  have h1 : cls.get_operator_classnames
      = Except.error ExtractorError.notImplementedError := by
    unfold ExtractorClass.get_operator_classnames
    rw [h]
  refine ⟨h1, ?_, ?_⟩
  · unfold BaseExtractor.get_operator_classnames
    rw [init_cls, h1]
  · rw [h1]
    simp

/-- Witness for C3 at a concrete class overriding nothing. -/
theorem C3_witness :
    abstractCls.get_operator_classnames
        = Except.error ExtractorError.notImplementedError
    ∧ (BaseExtractor.init abstractCls bqOp).get_operator_classnames
        = Except.error ExtractorError.notImplementedError
    ∧ abstractCls.get_operator_classnames ≠ Except.ok [] :=
  C3_classnames_not_implemented abstractCls bqOp rfl

/-- C4: an extractor class that does not override
`extract_on_complete` returns from it exactly what `extract` returns
on the same bound instance, for every `task_instance` argument. -/
theorem C4_default_extract_on_complete (self : BaseExtractor)
    (task_instance : Operator)
    (h : self.cls.extract_on_complete = none) :
    self.extract_on_complete task_instance = self.extract := by
  unfold BaseExtractor.extract_on_complete
  simp [h]

/-- Witness for C4 at the demo extractor. -/
theorem C4_witness :
    demoSelf.extract_on_complete pgOp = demoSelf.extract :=
  C4_default_extract_on_complete demoSelf pgOp rfl

/-- C5: when `validate` detects that the bound operator's class name
is not in the supported list, the failure surfaces to the caller as
the `AssertionError` variant: not a normal return, and distinguishable
from the `NotImplementedError` variant. -/
theorem C5_mismatch_typed_failure (self : BaseExtractor) (S : List String)
    (hS : self.get_operator_classnames = Except.ok S)
    (hm : self.operator.className ∉ S) :
    self.validate = Except.error ExtractorError.assertionError
    ∧ self.validate ≠ Except.ok ()
    ∧ ExtractorError.assertionError ≠ ExtractorError.notImplementedError := by
  have h1 : self.validate = Except.error ExtractorError.assertionError := by
    unfold BaseExtractor.validate
    rw [hS]
    simp [hm]
  refine ⟨h1, ?_, by simp⟩
  rw [h1]
  simp

/-- Witness for C5 at the demo extractor bound to a `PostgresOperator`. -/
theorem C5_witness :
    mismatchSelf.validate = Except.error ExtractorError.assertionError
    ∧ mismatchSelf.validate ≠ Except.ok ()
    ∧ ExtractorError.assertionError ≠ ExtractorError.notImplementedError :=
  C5_mismatch_typed_failure mismatchSelf ["BigQueryOperator"] rfl (by decide)

/-- C6: every `TaskMetadata` produced by the constructor carries a
definite value in all five fields: the name that was supplied, and for
each collection either the supplied collection or its empty form —
never a missing or undefined value. -/
theorem C6_fields_always_defined (name : Option String)
    (i o : Option (List Dataset))
    (r j : Option (List (String × BaseFacet))) (md : TaskMetadata)
    (h : TaskMetadata.init name i o r j = Except.ok md) :
    name = some md.name
    ∧ md = ⟨md.name, i.getD [], o.getD [], r.getD [], j.getD []⟩ := by
  cases name with
  | none => simp [TaskMetadata.init] at h
  | some n =>
    simp only [TaskMetadata.init, Except.ok.injEq] at h
    subst h
    simp

/-- Witness for C6: a construction supplying only the name. -/
theorem C6_witness :
    (some ("t") : Option String) = some (⟨"t", [], [], [], []⟩ : TaskMetadata).name
    ∧ (⟨"t", [], [], [], []⟩ : TaskMetadata)
        = ⟨(⟨"t", [], [], [], []⟩ : TaskMetadata).name,
            (none : Option (List Dataset)).getD [],
            (none : Option (List Dataset)).getD [],
            (none : Option (List (String × BaseFacet))).getD [],
            (none : Option (List (String × BaseFacet))).getD []⟩ :=
  C6_fields_always_defined (some ("t")) none none none none
    ⟨"t", [], [], [], []⟩ rfl

/-- C7 counterexample: construction is not a pure phase with patching
deferred to a separate later step.  For a class whose `patch` override
modifies the operator, the instance returned by the constructor
already holds the modified operator: `__init__` itself invoked
`patch`. -/
theorem C7_counterexample :
    (BaseExtractor.init patchingCls bqOp).operator ≠ bqOp := by
  decide

/-- C7 as amended: the patch step is coupled to construction, not a
separate later phase.  `__init__` stores the operator and then itself
invokes `patch` exactly once, so the constructed instance belongs to
the given class and holds the operator with the class's patch applied
once (unchanged when `patch` is not overridden); the patch step is
therefore complete before `validate` or `extract` can be invoked on
the instance. -/
theorem C7_patch_coupled_to_construction (cls : ExtractorClass) (op : Operator) :
    (BaseExtractor.init cls op).cls = cls
    ∧ (BaseExtractor.init cls op).operator = cls.patch.elim op (fun f => f op) := by
  refine ⟨init_cls cls op, ?_⟩
  unfold BaseExtractor.init BaseExtractor.patch
  rcases h : cls.patch with _ | f <;> simp [h]

/-- C8: `name` is the only constructor argument without a default:
omitting it fails with the missing-argument TypeError for any
combination of the other arguments, while supplying it alone (or with
any others) succeeds. -/
theorem C8_name_required (i o : Option (List Dataset))
    (r j : Option (List (String × BaseFacet))) :
    TaskMetadata.init none i o r j
        = Except.error ConstructError.typeErrorMissingName
    ∧ ∀ n : String, TaskMetadata.init (some n) i o r j
        = Except.ok ⟨n, i.getD [], o.getD [], r.getD [], j.getD []⟩ :=
  ⟨rfl, fun _ => rfl⟩

/-- C9: the default `extract_on_complete` ignores its `task_instance`
argument: on the same bound instance it returns the same result for
any two arguments. -/
theorem C9_default_ignores_task_instance (self : BaseExtractor)
    (t1 t2 : Operator)
    (h : self.cls.extract_on_complete = none) :
    self.extract_on_complete t1 = self.extract_on_complete t2 := by
  unfold BaseExtractor.extract_on_complete
  simp [h]

/-- Witness for C9 at the demo extractor with two distinct arguments. -/
theorem C9_witness :
    demoSelf.extract_on_complete bqOp = demoSelf.extract_on_complete pgOp :=
  C9_default_ignores_task_instance demoSelf bqOp pgOp rfl

/-- C10: for a class that does not override `patch`, the base `patch`
is a no-op: construction yields exactly the instance storing the given
operator, and the operator is unchanged. -/
theorem C10_base_patch_noop (cls : ExtractorClass) (op : Operator)
    (h : cls.patch = none) :
    BaseExtractor.init cls op = BaseExtractor.mk cls op
    ∧ (BaseExtractor.init cls op).operator = op := by
  have h1 : BaseExtractor.init cls op = BaseExtractor.mk cls op := by
    unfold BaseExtractor.init BaseExtractor.patch
    simp [h]
  exact ⟨h1, by rw [h1]⟩

/-- Witness for C10 at the demo class, which does not override `patch`. -/
theorem C10_witness :
    BaseExtractor.init demoCls bqOp = BaseExtractor.mk demoCls bqOp
    ∧ (BaseExtractor.init demoCls bqOp).operator = bqOp :=
  C10_base_patch_noop demoCls bqOp rfl
